import Mathlib

/-!
Shallow embedding of the daily complaints analytics pipeline
(`complaints_ai/agents/*.py`) and proofs about the frozen claims.

Modelling conventions:
* Python floats are modelled as exact rationals (`ℚ`); every arithmetic
  step mirrors the source expression.
* A polars dataframe is modelled as a `List` of rows; `group_by`/`join`
  are modelled by explicit list operations on the same keys.
* Calendar dates are modelled as integers (day numbers); the pipeline
  only ever compares, subtracts and groups by dates.
* Nullable database/file columns are `Option` values.
-/

namespace ComplaintsAI

/-- Anomaly severity values used by the pipeline (`daily_anomalies.severity`). -/
inductive Severity where
  | INFO
  | WARNING
  | CRITICAL
deriving DecidableEq, Repr

/-- Surge severity values used by `surge_highlighter_agent.py`. -/
inductive SurgeSeverity where
  | ALARMING
  | CRITICAL
deriving DecidableEq, Repr

/-- The `status` field of a stage result dictionary. -/
inductive StageStatus where
  | success
  | warning
  | error
deriving DecidableEq, Repr

/-! ## Variation agent (`variation_agent.py`) -/

/-- Result of `VariationAgent.calculate_variation`. -/
structure VariationResult where
  variation_percent : ℚ
  is_significant : Bool
deriving DecidableEq, Repr

/-- `VariationAgent.calculate_variation` (variation_agent.py lines 41-60).
`threshold` is `self.variation_threshold` (config default 15.0). -/
def calculate_variation (threshold : ℚ) (current previous : ℚ) : VariationResult :=
  if previous = 0 then
    if 0 < current then
      { variation_percent := 100, is_significant := true }
    else
      { variation_percent := 0, is_significant := false }
  else
    let variation_percent := ((current - previous) / previous) * 100
    { variation_percent := variation_percent
    , is_significant := decide (threshold ≤ |variation_percent|) }

/-! ## Severity agent (`severity_agent.py`) -/

/-- One textual entry appended to `daily_anomalies.rca_context`.  The source
stores the entry as a formatted string and joins successive entries with
`" | "`; we keep the structured content (the joined list) instead of the
rendered characters, since percentage/coefficient rendering of floats is
presentation only. -/
inductive ContextEntry where
  /-- `"Probable RCA: v1 (p1%), v2 (p2%), v3 (p3%)"` — pairs of rca value and
  its percentage of the scope total (rca_agent.py lines 65-72). -/
  | probableRCA (items : List (String × ℚ))
  /-- `"Correlated with: k1 (r1), k2 (r2), …"` — the candidate values whose
  correlation passed the filter (correlation_agent.py lines 123-129). -/
  | correlatedWith (keys : List String)
deriving DecidableEq, Repr

/-- The part of a `daily_anomalies` row the refinement stages read and write. -/
structure Anomaly where
  dimension : String
  dimension_key : String
  metric_value : ℚ
  baseline_avg : ℚ
  baseline_std : ℚ
  z_score : ℚ
  severity : Severity
  rca_context : List ContextEntry
deriving DecidableEq, Repr

/-- Rank of a severity in the INFO < WARNING < CRITICAL order. -/
def sevRank : Severity → ℕ
  | .INFO => 0
  | .WARNING => 1
  | .CRITICAL => 2

/-- Number of `dimension == 'Region'` anomalies among the stored anomalies of
the target date (the `region_anomalies_count` query in severity_agent.py). -/
def regionAnomalyCount (anoms : List Anomaly) : ℕ :=
  (anoms.filter (fun a => a.dimension = "Region")).length

/-- One iteration of the loop in `SeverityAgent.run` (severity_agent.py lines
39-71): `prev` is the set of `(dimension, dimension_key)` pairs that had an
anomaly on D−1; `regionCount` is `region_anomalies_count` on D. -/
def severityUpgradeOne (prev : List (String × String)) (regionCount : ℕ)
    (a : Anomaly) : Anomaly :=
  let is_persistent := (a.dimension, a.dimension_key) ∈ prev
  let is_widespread := 3 < regionCount
  if a.severity = Severity.WARNING ∧
      (is_persistent ∨ (is_widespread ∧ a.dimension = "Type")) then
    { a with severity := Severity.CRITICAL }
  else
    a

/-- `SeverityAgent.run` over the anomalies of the target date. -/
def severityRun (prev : List (String × String)) (anoms : List Anomaly) :
    List Anomaly :=
  anoms.map (severityUpgradeOne prev (regionAnomalyCount anoms))

/-! ## Raw fact rows

`complaints_raw` columns the analytical stages read.  `sr_open_dt` is the
complaint's calendar day. -/

structure RawRow where
  sr_open_dt : ℤ
  sr_type : String
  region : String
  exc_id : String
  city : String
  olt_id : String
  rca : String
deriving DecidableEq, Repr

/-- Dynamic column selection: the agents address `complaints_raw` columns by
name through string-keyed dimension maps. -/
def colOf (r : RawRow) : String → Option String
  | "sr_type" => some r.sr_type
  | "region" => some r.region
  | "exc_id" => some r.exc_id
  | "city" => some r.city
  | "olt_id" => some r.olt_id
  | "rca" => some r.rca
  | _ => none

/-! ## Anomaly agent (`anomaly_agent.py`) -/

/-- One row of the per-dimension baseline parquet file as the anomaly stage
reads it (`avg_30d`, `std_30d` are whatever floats the file holds). -/
structure AnomalyFileRow where
  key : String
  avg_30d : ℚ
  std_30d : ℚ
deriving DecidableEq, Repr

/-- The left join of a current-count key against the baseline file
(`current_counts.join(baseline_df, on=dim_col, how="left")`): baseline keys
are unique, so the join is a lookup. -/
def baselineLookup (file : List AnomalyFileRow) (k : String) :
    Option AnomalyFileRow :=
  file.find? (fun e => e.key = k)

/-- `current_df.group_by(dim_col).len()` (anomaly_agent.py line 89): count of
target-day rows per distinct value of the dimension column. -/
def currentCounts (rowsD : List RawRow) (col : String) : List (String × ℕ) :=
  let vals := rowsD.filterMap (fun r => colOf r col)
  vals.dedup.map (fun k => (k, vals.count k))

/-- Z-score with the division-by-zero epsilon (anomaly_agent.py lines 102-105):
`z = (current - avg_30d) / (std_30d + 0.001)`. -/
def anomalyZ (avg std : ℚ) (current : ℚ) : ℚ :=
  (current - avg) / (std + 1 / 1000)

/-- The per-dimension body of `AnomalyAgent.run` (anomaly_agent.py lines
86-130): aggregate current counts, left-join the baseline file filling missing
`avg_30d`/`std_30d` with 0, keep keys with `z_score > threshold_warning`, and
grade severity by `threshold_critical`.  New rows carry an empty
`rca_context`. -/
def anomalyDetectDim (dimName col : String) (file : List AnomalyFileRow)
    (rowsD : List RawRow) (tw tc : ℚ) : List Anomaly :=
  (currentCounts rowsD col).filterMap (fun kc =>
    let e := baselineLookup file kc.1
    let avg := (e.map (fun x => x.avg_30d)).getD 0
    let std := (e.map (fun x => x.std_30d)).getD 0
    let z := anomalyZ avg std (kc.2 : ℚ)
    if tw < z then
      some { dimension := dimName
           , dimension_key := kc.1
           , metric_value := (kc.2 : ℚ)
           , baseline_avg := avg
           , baseline_std := std
           , z_score := z
           , severity := if tc < z then Severity.CRITICAL else Severity.WARNING
           , rca_context := [] }
    else
      none)

/-- Step 3 of `AnomalyAgent.run` (anomaly_agent.py lines 132-147): the
date-scoped delete and insert run only when the freshly detected list is
non-empty; with an empty list the table is left untouched.  The table is the
whole `daily_anomalies` content as `(anomaly_date, row)` pairs. -/
def anomalyStore (table : List (ℤ × Anomaly)) (d : ℤ)
    (anomalies : List Anomaly) : List (ℤ × Anomaly) :=
  if anomalies = [] then
    table
  else
    (table.filter (fun row => row.1 ≠ d)) ++ anomalies.map (fun a => (d, a))

/-! ## Narrator agent (`narrator_agent.py`) -/

/-- The data interpolated into the narrator's `summary` f-string
(narrator_agent.py lines 47-55); we keep the interpolated values rather than
the rendered characters. -/
structure InsightSummary where
  metric_value : ℚ
  baseline_avg : ℚ
  z_score : ℚ
  severity : Severity
  context : List ContextEntry
deriving DecidableEq, Repr

/-- An `exec_insights` row. -/
structure ExecInsight where
  created_at : ℤ
  title : String
  summary : InsightSummary
  severity : Severity
deriving DecidableEq, Repr

/-- The insight built for one anomaly (narrator_agent.py lines 39-65). -/
def mkInsight (d : ℤ) (a : Anomaly) : ExecInsight :=
  { created_at := d
  , title := "Spike in " ++ a.dimension_key ++ " (" ++ a.dimension ++ ")"
  , summary :=
      { metric_value := a.metric_value
      , baseline_avg := a.baseline_avg
      , z_score := a.z_score
      , severity := a.severity
      , context := a.rca_context }
  , severity := a.severity }

/-- Stable step of a descending insertion sort on z-scores. -/
def insertByZDesc (x : Anomaly) : List Anomaly → List Anomaly
  | [] => [x]
  | y :: ys => if y.z_score < x.z_score then x :: y :: ys else y :: insertByZDesc x ys

/-- The `ORDER BY z_score DESC` of the narrator's anomaly query. -/
def sortByZDesc (l : List Anomaly) : List Anomaly :=
  l.foldr insertByZDesc []

/-- `NarratorAgent.run` (narrator_agent.py lines 27-75): read the anomalies of
the target date ordered by descending z-score, skip `INFO` rows, and append
one insight per remaining anomaly to the `exec_insights` table.  No existing
insight row is deleted or updated. -/
def narratorRun (d : ℤ) (table : List ExecInsight) (anoms : List Anomaly) :
    List ExecInsight :=
  table ++ (sortByZDesc anoms).filterMap (fun a =>
    if a.severity = Severity.INFO then none else some (mkInsight d a))

/-! ## Baseline agent (`baseline_agent.py`) -/

/-- The columns the baseline SQL query selects (baseline_agent.py lines
44-48): `SELECT sr_open_dt, sr_type, region, exc_id, olt_id, rca`.  Note the
query selects `olt_id` and does not select `city`. -/
def baselineQueryCols : List String :=
  ["sr_open_dt", "sr_type", "region", "exc_id", "olt_id", "rca"]

/-- `self.dimensions` of the baseline agent (baseline_agent.py lines 21-27),
in iteration order. -/
def baselineDimensions : List (String × String) :=
  [("Type", "sr_type"), ("Region", "region"), ("Exchange", "exc_id"),
   ("City", "city"), ("RCA", "rca")]

/-- Mean of a list of rationals (polars `.mean()`; the empty case is only
reached through the outer-join fill, where the source fills the null with
0). -/
def listMean (l : List ℚ) : ℚ :=
  l.sum / (l.length : ℚ)

/-- Sample variance with `ddof = 1` (polars `.std()` squared); a single
sample gives a null std which the source fills with 0. -/
def listVar (l : List ℚ) : ℚ :=
  if l.length < 2 then 0
  else ((l.map (fun x => (x - listMean l) ^ 2)).sum) / ((l.length : ℚ) - 1)

/-- The days inside the `w`-day window on which `key` has at least one row:
`daily_counts` grouped by (key, day), filtered to `day < D` (no-leakage
filter, line 66) and `day ≥ D - w` (window cutoff, lines 72-74). -/
def keyWindowDays (df : List RawRow) (col key : String) (D : ℤ) (w : ℕ) :
    List ℤ :=
  (((df.filter (fun r => colOf r col = some key)).map
      (fun r => r.sr_open_dt)).dedup).filter
    (fun d => D - (w : ℤ) ≤ d ∧ d < D)

/-- Count of rows of `key` on day `d` (the `len` of the (key, day) group). -/
def keyDayCount (df : List RawRow) (col key : String) (d : ℤ) : ℕ :=
  (df.filter (fun r => colOf r col = some key ∧ r.sr_open_dt = d)).length

/-- The per-day counts of `key` inside the `w`-day window. -/
def windowCounts (df : List RawRow) (col key : String) (D : ℤ) (w : ℕ) :
    List ℚ :=
  (keyWindowDays df col key D w).map (fun d => (keyDayCount df col key d : ℚ))

/-- The distinct keys that appear inside the `w`-day window (the group keys
of `window_df.group_by(dim_col)`). -/
def windowKeys (df : List RawRow) (col : String) (D : ℤ) (w : ℕ) :
    List String :=
  ((df.filter (fun r => (D - (w : ℤ) ≤ r.sr_open_dt ∧ r.sr_open_dt < D))).filterMap
    (fun r => colOf r col)).dedup

/-- One row of a persisted per-dimension baseline parquet file
(baseline_agent.py lines 77-96).  The source stores `std_{w}d`, the square
root of the sample variance, as a float; we carry the exact square
`var_{w}d = std_{w}d²` instead, which determines it. -/
structure BaselineFileRow where
  key : String
  avg_7d : ℚ
  var_7d : ℚ
  samples_7d : ℕ
  avg_14d : ℚ
  var_14d : ℚ
  samples_14d : ℕ
  avg_30d : ℚ
  var_30d : ℚ
  samples_30d : ℕ
deriving DecidableEq, Repr

/-- The parquet content for one dimension: the outer join of the three
window aggregations on the key column, with nulls filled by 0 (lines 86-91).
A key absent from a window gets 0 average, 0 variance and 0 samples for that
window. -/
def baselineFileFor (df : List RawRow) (col : String) (D : ℤ) :
    List BaselineFileRow :=
  let keys := (windowKeys df col D 7 ++ windowKeys df col D 14 ++
    windowKeys df col D 30).dedup
  keys.map (fun k =>
    { key := k
    , avg_7d := listMean (windowCounts df col k D 7)
    , var_7d := listVar (windowCounts df col k D 7)
    , samples_7d := (windowCounts df col k D 7).length
    , avg_14d := listMean (windowCounts df col k D 14)
    , var_14d := listVar (windowCounts df col k D 14)
    , samples_14d := (windowCounts df col k D 14).length
    , avg_30d := listMean (windowCounts df col k D 30)
    , var_30d := listVar (windowCounts df col k D 30)
    , samples_30d := (windowCounts df col k D 30).length })

/-- Result of `BaselineAgent.run`: the returned status together with the
per-dimension parquet files that were written before the run ended. -/
structure BaselineResult where
  status : StageStatus
  persisted : List (String × List BaselineFileRow)
deriving DecidableEq, Repr

/-- The dimension loop of `BaselineAgent.run` (lines 59-98).
`df.group_by([dim_col, "sr_open_dt"])` raises `ColumnNotFoundError` when
`dim_col` is not among the queried columns; the surrounding `except` turns
that into a status-error result (lines 103-105), and the parquet files
already written inside the loop stay on disk. -/
def baselineRunGo (df : List RawRow) (D : ℤ) :
    List (String × String) → List (String × List BaselineFileRow) →
    BaselineResult
  | [], acc => { status := StageStatus.success, persisted := acc }
  | (dimName, col) :: rest, acc =>
    if col ∈ baselineQueryCols then
      baselineRunGo df D rest (acc ++ [(dimName, baselineFileFor df col D)])
    else
      { status := StageStatus.error, persisted := acc }

/-- `BaselineAgent.run` (lines 30-105): fetch the rows of the 35-day buffer
`[D-35, D]`, return a warning when that frame is empty, else run the
dimension loop. -/
def baselineRun (rows : List RawRow) (D : ℤ) : BaselineResult :=
  let df := rows.filter (fun r => D - 35 ≤ r.sr_open_dt ∧ r.sr_open_dt ≤ D)
  if df = [] then { status := StageStatus.warning, persisted := [] }
  else baselineRunGo df D baselineDimensions []

/-! ## RCA agent (`rca_agent.py`) -/

/-- The `dim_map` of `RCAAgent.run` (rca_agent.py lines 43-46): it maps
`Type`, `Region`, `Exchange` and `OLT` — and has no entry for `City`. -/
def rcaDimMap : List (String × String) :=
  [("Type", "sr_type"), ("Region", "region"), ("Exchange", "exc_id"),
   ("OLT", "olt_id")]

/-- Stable step of a descending insertion sort on counts. -/
def insertByCountDesc (x : String × ℕ) :
    List (String × ℕ) → List (String × ℕ)
  | [] => [x]
  | y :: ys =>
    if y.2 < x.2 then x :: y :: ys else y :: insertByCountDesc x ys

/-- Descending sort by count (`.sort("len", descending=True)`). -/
def sortByCountDesc (l : List (String × ℕ)) : List (String × ℕ) :=
  l.foldr insertByCountDesc []

/-- `df.group_by("rca").len()`: one (value, count) pair per distinct value. -/
def rcaGroupCounts (rcas : List String) : List (String × ℕ) :=
  rcas.dedup.map (fun v => (v, rcas.count v))

/-- Top-3 rca values by frequency with their percentage of the scope total
(rca_agent.py lines 62-70): `pct = (len / total) * 100`. -/
def rcaTop3 (rcas : List String) : List (String × ℚ) :=
  ((sortByCountDesc (rcaGroupCounts rcas)).take 3).map
    (fun vc => (vc.1, ((vc.2 : ℕ) : ℚ) / (rcas.length : ℚ) * 100))

/-- The loop body of `RCAAgent.run` for one anomaly (rca_agent.py lines
37-81): skip `RCA`-dimension anomalies, look the dimension up in `dim_map`
(silently skipping when absent), fetch the target-day rows of the anomaly's
scope, and append the `Probable RCA` entry when the scope is non-empty. -/
def rcaProcessAnomaly (rowsD : List RawRow) (a : Anomaly) : Anomaly :=
  if a.dimension = "RCA" then a
  else
    match rcaDimMap.lookup a.dimension with
    | none => a
    | some col =>
      let scope := rowsD.filter (fun r => colOf r col = some a.dimension_key)
      if scope = [] then a
      else
        { a with rca_context := a.rca_context ++
            [ContextEntry.probableRCA (rcaTop3 (scope.map (fun r => r.rca)))] }

/-- `RCAAgent.run` over the anomalies of the target date. -/
def rcaRun (rowsD : List RawRow) (anoms : List Anomaly) : List Anomaly :=
  anoms.map (rcaProcessAnomaly rowsD)

/-! ## Correlation agent (`correlation_agent.py`) -/

/-- The `dim_map` of `CorrelationAgent.run` (correlation_agent.py lines
91-94): all five analytical dimensions, including `RCA`. -/
def corrDimMap : List (String × String) :=
  [("Type", "sr_type"), ("Region", "region"), ("Exchange", "exc_id"),
   ("City", "city"), ("RCA", "rca")]

/-- Ascending insertion step on dates. -/
def insertDateAsc (x : ℤ) : List ℤ → List ℤ
  | [] => [x]
  | y :: ys => if x ≤ y then x :: y :: ys else y :: insertDateAsc x ys

/-- Ascending sort on dates (`.sort("time_bucket")`). -/
def sortDatesAsc (l : List ℤ) : List ℤ :=
  l.foldr insertDateAsc []

/-- `get_series` (correlation_agent.py lines 67-73): filter the 30-day frame
to the value, count rows per day, sort by day.  Days with no row are absent
from the series. -/
def seriesFor (rows30 : List RawRow) (col v : String) : List (ℤ × ℕ) :=
  let f := rows30.filter (fun r => colOf r col = some v)
  (sortDatesAsc ((f.map (fun r => r.sr_open_dt)).dedup)).map
    (fun d => (d, (f.filter (fun r => r.sr_open_dt = d)).length))

/-- `group_by(col).len().sort("len", descending=True).limit(5)`
(correlation_agent.py lines 80-81): the top-5 values of a column by total
row volume in the 30-day frame. -/
def top5Keys (rows30 : List RawRow) (col : String) : List String :=
  let vals := rows30.filterMap (fun r => colOf r col)
  ((sortByCountDesc (vals.dedup.map (fun v => (v, vals.count v)))).take 5).map
    (fun vc => vc.1)

/-- `s1.join(s2, on="time_bucket", how="inner")` (line 117) projected onto
the two count columns.  Series dates are unique, so the join is a lookup. -/
def innerJoinCounts (s1 s2 : List (ℤ × ℕ)) : List (ℚ × ℚ) :=
  s1.filterMap (fun p =>
    (s2.lookup p.1).map (fun c2 => ((p.2 : ℚ), (c2 : ℚ))))

/-- Decides `corr is defined and corr > t` (line 123, `t = 0.7`) for the
Pearson coefficient of the joined columns.  With `n·Σxy − Σx·Σy` for the
covariance and `n·Σx² − (Σx)²`, `n·Σy² − (Σy)²` for the variances (all
scaled by the same positive factor n², which cancels in ρ), and `t > 0`:
`ρ = cov/√(vx·vy) > t  ↔  vx ≠ 0 ∧ vy ≠ 0 ∧ cov > 0 ∧ t²·vx·vy < cov²`,
a purely rational test; a zero variance makes the float coefficient
null/NaN, which the source's `if corr and corr > 0.7` rejects. -/
def corrExceeds (xs : List (ℚ × ℚ)) (t : ℚ) : Bool :=
  let n : ℚ := (xs.length : ℚ)
  let sx := (xs.map (fun p => p.1)).sum
  let sy := (xs.map (fun p => p.2)).sum
  let sxx := (xs.map (fun p => p.1 * p.1)).sum
  let syy := (xs.map (fun p => p.2 * p.2)).sum
  let sxy := (xs.map (fun p => p.1 * p.2)).sum
  let cov := n * sxy - sx * sy
  let vx := n * sxx - sx * sx
  let vy := n * syy - sy * sy
  !(decide (vx = 0)) && !(decide (vy = 0)) && decide (0 < cov) &&
    decide (t * t * (vx * vy) < cov * cov)

/-- The candidate targets checked for one anomaly (correlation_agent.py
lines 103-109): the top-5 types unless the anomaly's dimension is `Type`,
plus the top-5 regions unless it is `Region`.  No other dimension
contributes candidates. -/
def corrTargets (dim : String) (topTypes topRegions : List String) :
    List (String × String) :=
  (if dim ≠ "Type" then topTypes.map (fun t => ("sr_type", t)) else []) ++
  (if dim ≠ "Region" then topRegions.map (fun r => ("region", r)) else [])

/-- The inner candidate loop (lines 112-124): a candidate is listed when its
own series has ≥ 3 points, the inner join has ≥ 3 points, and the Pearson
coefficient exceeds 0.7. -/
def corrListedFor (rows30 : List RawRow) (s1 : List (ℤ × ℕ))
    (targets : List (String × String)) : List String :=
  targets.filterMap (fun tv =>
    let s2 := seriesFor rows30 tv.1 tv.2
    if s2.length < 3 then none
    else
      let joined := innerJoinCounts s1 s2
      if joined.length < 3 then none
      else if corrExceeds joined (7 / 10) then some tv.2 else none)

/-- The loop body of `CorrelationAgent.run` for one anomaly (lines 86-135):
anomalies of every dimension in `dim_map` (including `RCA`) are processed;
an anomaly whose own series has fewer than 3 points is skipped; the
`Correlated with` entry is appended only when some candidate passed. -/
def corrProcessAnomaly (rows30 : List RawRow) (topTypes topRegions : List String)
    (a : Anomaly) : Anomaly :=
  match corrDimMap.lookup a.dimension with
  | none => a
  | some col =>
    let s1 := seriesFor rows30 col a.dimension_key
    if s1.length < 3 then a
    else
      let correlations :=
        corrListedFor rows30 s1 (corrTargets a.dimension topTypes topRegions)
      if correlations = [] then a
      else
        { a with rca_context := a.rca_context ++
            [ContextEntry.correlatedWith correlations] }

/-- `CorrelationAgent.run` over the anomalies of the target date, given the
raw rows of `[D-30, D]`. -/
def correlationRun (rows30 : List RawRow) (anoms : List Anomaly) :
    List Anomaly :=
  anoms.map (corrProcessAnomaly rows30 (top5Keys rows30 "sr_type")
    (top5Keys rows30 "region"))

/-- Modelled from the spec's words (§4.6 / claim C5), for comparison with
`corrProcessAnomaly`: for an anomaly with dimension ≠ RCA, the candidate set
is the top-5 keys by total volume within *each other* dimension, and every
candidate whose Pearson correlation over the inner-joined dates (≥ 3
overlapping points required) exceeds 0.7 is listed. -/
def specCorrListed (rows30 : List RawRow) (a : Anomaly) : List String :=
  match corrDimMap.lookup a.dimension with
  | none => []
  | some col =>
    let s1 := seriesFor rows30 col a.dimension_key
    (corrDimMap.filter (fun dc => dc.1 ≠ a.dimension)).flatMap (fun dc =>
      (top5Keys rows30 dc.2).filterMap (fun v =>
        let joined := innerJoinCounts s1 (seriesFor rows30 dc.2 v)
        if joined.length < 3 then none
        else if corrExceeds joined (7 / 10) then some v else none))

/-! ## Surge highlighter agent (`surge_highlighter_agent.py`) -/

/-- Python's `round(x, 1)`.  Ties in Python fall half-to-even on the binary
float; we round half-up on the exact rational.  No theorem below depends on
the direction of an exact tie: every property proved compares the rounded
value that is stored with the threshold it was itself tested against. -/
def pyRound1 (x : ℚ) : ℚ :=
  (round (x * 10) : ℤ) / 10

/-- Python's `int(x)` (truncation toward zero). -/
def pyInt (x : ℚ) : ℤ :=
  if x < 0 then -(Int.floor (-x)) else Int.floor x

/-- `_calculate_surge` (surge_highlighter_agent.py lines 215-229): returns
the pair (percent, increase). -/
def calculate_surge (current comparison : ℚ) : ℚ × ℚ :=
  if comparison = 0 then
    if 0 < current then (9999 / 10, current) else (0, 0)
  else
    let increase := current - comparison
    let percent := (increase / comparison) * 100
    (pyRound1 percent, pyRound1 increase)

/-- One emitted surge record (the dictionary built in `_check_surge`). -/
structure SurgeRecord where
  level : String
  name : String
  current_count : ℤ
  mtd_avg : ℚ
  last_week_count : ℤ
  mtd_surge_percent : ℚ
  wow_surge_percent : ℚ
  max_surge_percent : ℚ
  severity : SurgeSeverity
  parent : Option String
deriving DecidableEq, Repr

/-- `_check_surge` (surge_highlighter_agent.py lines 317-356): compute the
two surge percentages, reject when their max is below the alarming
threshold, and grade CRITICAL at or above the critical threshold. -/
def check_surge (name : String) (current last_week mtd_avg : ℚ)
    (alarming critical : ℚ) (level : String) (parent : Option String) :
    Option SurgeRecord :=
  let mtd := calculate_surge current mtd_avg
  let wow := calculate_surge current last_week
  let max_percent := max mtd.1 wow.1
  if max_percent < alarming then none
  else
    some { level := level
         , name := name
         , current_count := pyInt current
         , mtd_avg := pyRound1 mtd_avg
         , last_week_count := pyInt last_week
         , mtd_surge_percent := mtd.1
         , wow_surge_percent := wow.1
         , max_surge_percent := max_percent
         , severity := if critical ≤ max_percent then SurgeSeverity.CRITICAL
                       else SurgeSeverity.ALARMING
         , parent := parent }

/-- The four per-level count dictionaries of `_get_date_data` /
`_get_mtd_average`, as association lists; exchange keys are (region, exc_id)
pairs and city keys (region, exc_id, city) triples (the source concatenates
them with `|`). -/
structure SurgeLevelData (α : Type) where
  total : α
  regions : List (String × α)
  exchanges : List ((String × String) × α)
  cities : List ((String × String × String) × α)
deriving DecidableEq, Repr

/-- The result of `_detect_surges`: one list of records per level. -/
structure SurgeReport where
  total : List SurgeRecord
  regions : List SurgeRecord
  exchanges : List SurgeRecord
  cities : List SurgeRecord
deriving DecidableEq, Repr

/-- `_detect_surges` (surge_highlighter_agent.py lines 231-315): check the
total, then every region with current count ≥ 15, every exchange with
current count ≥ 10 and every city with current count ≥ 5; the comparison
counts default to 0 when the key is absent (`dict.get(key, 0)`). -/
def detect_surges (target : SurgeLevelData ℕ) (last_week : SurgeLevelData ℕ)
    (mtd_avg : SurgeLevelData ℚ) (alarming critical : ℚ) : SurgeReport :=
  { total :=
      (check_surge "Total" (target.total : ℚ) (last_week.total : ℚ)
        mtd_avg.total alarming critical "Total" none).toList
  , regions :=
      target.regions.filterMap (fun rc =>
        if rc.2 < 15 then none
        else
          check_surge rc.1 (rc.2 : ℚ)
            (((last_week.regions.lookup rc.1).getD 0 : ℕ) : ℚ)
            ((mtd_avg.regions.lookup rc.1).getD 0)
            alarming critical "Region" none)
  , exchanges :=
      target.exchanges.filterMap (fun ec =>
        if ec.2 < 10 then none
        else
          check_surge ec.1.2 (ec.2 : ℚ)
            (((last_week.exchanges.lookup ec.1).getD 0 : ℕ) : ℚ)
            ((mtd_avg.exchanges.lookup ec.1).getD 0)
            alarming critical "Exchange" (some ec.1.1))
  , cities :=
      target.cities.filterMap (fun cc =>
        if cc.2 < 5 then none
        else
          check_surge cc.1.2.2 (cc.2 : ℚ)
            (((last_week.cities.lookup cc.1).getD 0 : ℕ) : ℚ)
            ((mtd_avg.cities.lookup cc.1).getD 0)
            alarming critical "City"
            (some (cc.1.1 ++ " > " ++ cc.1.2.1))) }

/-! ## Ingestion agent (`ingestion_agent.py`), date-drop tail -/

/-- A CSV row as it stands right before date parsing: the raw text of the
`sr_open_dttm` column (copied to `raw_sr_open_dttm` on line 178) and the
`sr_number` cell. -/
structure CsvRow where
  sr_open_dttm : String
  sr_number : Option String
deriving DecidableEq, Repr

/-- A row after date parsing. -/
structure IngRow where
  raw_sr_open_dttm : String
  sr_open_dttm : Option ℤ
  sr_number : Option String
deriving DecidableEq, Repr

/-- `pl.coalesce` over the per-format parses (ingestion_agent.py lines
208-221): the first format that parses the cell wins; the cell stays null
when every format fails. -/
def coalesceParse (fmts : List (String → Option ℤ)) (s : String) : Option ℤ :=
  match fmts with
  | [] => none
  | f :: rest =>
    match f s with
    | some v => some v
    | none => coalesceParse rest s

/-- Result of the ingestion run from the date-drop step on: the returned
status, the `raw_sample` diagnostic of the date-parse error (line 278), and
the records handed to the upsert-and-commit (lines 296-325).  The error
return happens before any session is opened, so nothing is committed on that
path. -/
structure IngResult where
  status : StageStatus
  raw_sample : Option String
  processed_rows : Option ℕ
  committed : List IngRow
deriving DecidableEq, Repr

/-- Date parsing of one row: the raw text is kept for diagnostics (line 178)
and the timestamp is the coalesced parse over the format attempts. -/
def parseRow (fmts : List (String → Option ℤ)) (r : CsvRow) : IngRow :=
  { raw_sr_open_dttm := r.sr_open_dttm
  , sr_open_dttm := coalesceParse fmts r.sr_open_dttm
  , sr_number := r.sr_number }

/-- `IngestionAgent.run` from date parsing to the upsert (ingestion_agent.py
lines 207-330): parse `sr_open_dttm` by coalescing the format attempts,
remember the first raw value as the diagnostic sample, drop the rows whose
timestamp is still null, fail with an error result when no row survives, and
otherwise commit the surviving rows that have a truthy `sr_number`. -/
def ingestFinalize (fmts : List (String → Option ℤ)) (rows : List CsvRow) :
    IngResult :=
  let parsed := rows.map (parseRow fmts)
  let sample := match parsed with
    | [] => "N/A"
    | r :: _ => r.raw_sr_open_dttm
  let kept := parsed.filter (fun r => r.sr_open_dttm.isSome)
  if kept = [] then
    { status := StageStatus.error
    , raw_sample := some sample
    , processed_rows := none
    , committed := [] }
  else
    let clean := kept.filter (fun r =>
      match r.sr_number with
      | some s => s ≠ ""
      | none => false)
    { status := StageStatus.success
    , raw_sample := none
    , processed_rows := some kept.length
    , committed := clean }

/-! ## Helper lemmas -/

/-- The RCA pass only edits `rca_context`; it never touches severity. -/
theorem rcaProcessAnomaly_severity (rowsD : List RawRow) (a : Anomaly) :
    (rcaProcessAnomaly rowsD a).severity = a.severity := by
  unfold rcaProcessAnomaly
  split
  · rfl
  · split
    · rfl
    · dsimp only
      split
      · rfl
      · rfl

/-- The correlation pass only edits `rca_context`; it never touches
severity. -/
theorem corrProcessAnomaly_severity (rows30 : List RawRow)
    (topT topR : List String) (a : Anomaly) :
    (corrProcessAnomaly rows30 topT topR a).severity = a.severity := by
  unfold corrProcessAnomaly
  split
  · rfl
  · dsimp only
    split
    · rfl
    · split
      · rfl
      · rfl

/-! ## Claim C6 -/

/-- C6 counterexample: with a configured threshold of 150 (> 100),
`previous == 0 ∧ current > 0` still yields `is_significant = 1`, although
the claim demands `is_significant == 1` iff the threshold is ≤ 100. -/
theorem c6_zero_prev_counterexample :
    (calculate_variation 150 1 0).is_significant = true ∧
      ¬ ((150 : ℚ) ≤ 100) := by
  constructor
  · decide
  · norm_num

/-- C6 (amended): if `previous == 0 ∧ current > 0` then
`variation_percent == 100.0` and `is_significant == 1` unconditionally (the
threshold is not consulted on this branch); if `previous == 0 ∧ current == 0`
then `variation_percent == 0` and `is_significant == 0`; otherwise
`variation_percent == (current − previous)/previous × 100` and
`is_significant == 1` iff `|variation_percent| ≥ threshold`. -/
theorem c6_variation_rule (t c p : ℚ) :
    (p = 0 → 0 < c → calculate_variation t c p =
      { variation_percent := 100, is_significant := true }) ∧
    (p = 0 → c = 0 → calculate_variation t c p =
      { variation_percent := 0, is_significant := false }) ∧
    (p ≠ 0 →
      (calculate_variation t c p).variation_percent = ((c - p) / p) * 100 ∧
      ((calculate_variation t c p).is_significant = true ↔
        t ≤ |((c - p) / p) * 100|)) := by
  refine ⟨?_, ?_, ?_⟩
  · intro hp hc
    simp [calculate_variation, hp, hc]
  · intro hp hc
    subst hp
    subst hc
    simp [calculate_variation]
  · intro hp
    simp [calculate_variation, hp]

/-- Witness for C6 at the default threshold 15 with current 1, previous 0. -/
theorem c6_variation_rule_witness :
    calculate_variation 15 1 0 =
      { variation_percent := 100, is_significant := true } :=
  (c6_variation_rule 15 1 0).1 rfl (by norm_num)

/-! ## Claim C7 -/

/-- C7: the Severity stage turns an anomaly's severity into CRITICAL from
WARNING exactly when the same (dimension, key) had an anomaly on D−1 or the
dimension is Type and more than 3 Region anomalies exist on D; severity rank
never decreases, any change is exactly the WARNING→CRITICAL upgrade, and the
RCA and Correlation passes never change severity at all. -/
theorem c7_severity_refinement (prev : List (String × String))
    (anoms : List Anomaly) (a : Anomaly) (h : a ∈ anoms)
    (rowsD rows30 : List RawRow) (topT topR : List String) :
    severityUpgradeOne prev (regionAnomalyCount anoms) a ∈
      severityRun prev anoms ∧
    ((severityUpgradeOne prev (regionAnomalyCount anoms) a).severity =
        Severity.CRITICAL ∧ a.severity = Severity.WARNING ↔
      a.severity = Severity.WARNING ∧
        ((a.dimension, a.dimension_key) ∈ prev ∨
          (3 < regionAnomalyCount anoms ∧ a.dimension = "Type"))) ∧
    sevRank a.severity ≤
      sevRank (severityUpgradeOne prev (regionAnomalyCount anoms) a).severity ∧
    ((severityUpgradeOne prev (regionAnomalyCount anoms) a).severity ≠
        a.severity →
      a.severity = Severity.WARNING ∧
      (severityUpgradeOne prev (regionAnomalyCount anoms) a).severity =
        Severity.CRITICAL) ∧
    (rcaProcessAnomaly rowsD a).severity = a.severity ∧
    (corrProcessAnomaly rows30 topT topR a).severity = a.severity := by
  refine ⟨List.mem_map_of_mem _ h, ?_, ?_, ?_,
    rcaProcessAnomaly_severity rowsD a,
    corrProcessAnomaly_severity rows30 topT topR a⟩
  · by_cases hcond : a.severity = Severity.WARNING ∧
        ((a.dimension, a.dimension_key) ∈ prev ∨
          (3 < regionAnomalyCount anoms ∧ a.dimension = "Type"))
    · simp [severityUpgradeOne, hcond]
    · simp only [severityUpgradeOne, if_neg hcond]
      constructor
      · intro hx
        exact absurd (hx.2 ▸ hx.1) (by simp)
      · intro hx
        exact absurd hx hcond
  · by_cases hcond : a.severity = Severity.WARNING ∧
        ((a.dimension, a.dimension_key) ∈ prev ∨
          (3 < regionAnomalyCount anoms ∧ a.dimension = "Type"))
    · simp [severityUpgradeOne, hcond, hcond.1, sevRank]
    · simp [severityUpgradeOne, if_neg hcond]
  · by_cases hcond : a.severity = Severity.WARNING ∧
        ((a.dimension, a.dimension_key) ∈ prev ∨
          (3 < regionAnomalyCount anoms ∧ a.dimension = "Type"))
    · intro _
      simp [severityUpgradeOne, hcond, hcond.1]
    · intro hne
      exact absurd (by simp [severityUpgradeOne, if_neg hcond]) hne

/-- A concrete anomaly used by the C7 witness. -/
def warnEx : Anomaly :=
  { dimension := "Type", dimension_key := "K", metric_value := 5
  , baseline_avg := 1, baseline_std := 1, z_score := 4
  , severity := Severity.WARNING, rca_context := [] }

/-- Witness for C7: a WARNING Type anomaly that persisted from D−1. -/
theorem c7_severity_refinement_witness :
    severityUpgradeOne [("Type", "K")] (regionAnomalyCount [warnEx]) warnEx ∈
      severityRun [("Type", "K")] [warnEx] ∧
    ((severityUpgradeOne [("Type", "K")] (regionAnomalyCount [warnEx])
        warnEx).severity = Severity.CRITICAL ∧
      warnEx.severity = Severity.WARNING ↔
      warnEx.severity = Severity.WARNING ∧
        ((warnEx.dimension, warnEx.dimension_key) ∈ [("Type", "K")] ∨
          (3 < regionAnomalyCount [warnEx] ∧ warnEx.dimension = "Type"))) ∧
    sevRank warnEx.severity ≤
      sevRank (severityUpgradeOne [("Type", "K")]
        (regionAnomalyCount [warnEx]) warnEx).severity ∧
    ((severityUpgradeOne [("Type", "K")] (regionAnomalyCount [warnEx])
        warnEx).severity ≠ warnEx.severity →
      warnEx.severity = Severity.WARNING ∧
      (severityUpgradeOne [("Type", "K")] (regionAnomalyCount [warnEx])
        warnEx).severity = Severity.CRITICAL) ∧
    (rcaProcessAnomaly [] warnEx).severity = warnEx.severity ∧
    (corrProcessAnomaly [] [] [] warnEx).severity = warnEx.severity :=
  c7_severity_refinement [("Type", "K")] [warnEx] warnEx (by simp) [] [] [] []

/-! ## Claim C8 -/

/-- `pyInt` on a natural count is the count itself. -/
theorem pyInt_natCast (n : ℕ) : pyInt (n : ℚ) = (n : ℤ) := by
  unfold pyInt
  rw [if_neg (not_lt.mpr (by positivity))]
  exact Int.floor_natCast n

/-- Every record `check_surge` emits passed the alarming gate, is CRITICAL
exactly at or above the critical threshold, and stores the truncated current
count. -/
theorem check_surge_spec (name : String) (current last_week mtd_avg : ℚ)
    (al cr : ℚ) (level : String) (parent : Option String) (s : SurgeRecord)
    (h : check_surge name current last_week mtd_avg al cr level parent =
      some s) :
    al ≤ s.max_surge_percent ∧
    (s.severity = SurgeSeverity.CRITICAL ↔ cr ≤ s.max_surge_percent) ∧
    s.current_count = pyInt current := by
  simp only [check_surge] at h
  split at h
  · exact absurd h (by simp)
  · next hlt =>
    injection h with h
    subst h
    refine ⟨not_lt.mp hlt, ?_, rfl⟩
    by_cases hcr : cr ≤ max (calculate_surge current mtd_avg).1
        (calculate_surge current last_week).1
    · simp [hcr]
    · simp [hcr]

/-- C8: no region surge is emitted with current-day count below 15, no
exchange surge below 10, no city surge below 5; every emitted surge record
has `max_surge_percent` at or above the alarming threshold, and is CRITICAL
exactly when `max_surge_percent` is at or above the critical threshold. -/
theorem c8_surge_floors (target last_week : SurgeLevelData ℕ)
    (mtd_avg : SurgeLevelData ℚ) (al cr : ℚ) :
    (∀ s ∈ (detect_surges target last_week mtd_avg al cr).regions,
      15 ≤ s.current_count) ∧
    (∀ s ∈ (detect_surges target last_week mtd_avg al cr).exchanges,
      10 ≤ s.current_count) ∧
    (∀ s ∈ (detect_surges target last_week mtd_avg al cr).cities,
      5 ≤ s.current_count) ∧
    (∀ s ∈ (detect_surges target last_week mtd_avg al cr).total ++
        (detect_surges target last_week mtd_avg al cr).regions ++
        (detect_surges target last_week mtd_avg al cr).exchanges ++
        (detect_surges target last_week mtd_avg al cr).cities,
      al ≤ s.max_surge_percent ∧
      (s.severity = SurgeSeverity.CRITICAL ↔ cr ≤ s.max_surge_percent)) := by
  refine ⟨?_, ?_, ?_, ?_⟩
  · intro s hs
    simp only [detect_surges, List.mem_filterMap] at hs
    obtain ⟨rc, _, hsome⟩ := hs
    split at hsome
    · exact absurd hsome (by simp)
    · next hfloor =>
      obtain ⟨_, _, hcnt⟩ := check_surge_spec _ _ _ _ _ _ _ _ _ hsome
      rw [hcnt, pyInt_natCast]
      exact_mod_cast not_lt.mp hfloor
  · intro s hs
    simp only [detect_surges, List.mem_filterMap] at hs
    obtain ⟨ec, _, hsome⟩ := hs
    split at hsome
    · exact absurd hsome (by simp)
    · next hfloor =>
      obtain ⟨_, _, hcnt⟩ := check_surge_spec _ _ _ _ _ _ _ _ _ hsome
      rw [hcnt, pyInt_natCast]
      exact_mod_cast not_lt.mp hfloor
  · intro s hs
    simp only [detect_surges, List.mem_filterMap] at hs
    obtain ⟨cc, _, hsome⟩ := hs
    split at hsome
    · exact absurd hsome (by simp)
    · next hfloor =>
      obtain ⟨_, _, hcnt⟩ := check_surge_spec _ _ _ _ _ _ _ _ _ hsome
      rw [hcnt, pyInt_natCast]
      exact_mod_cast not_lt.mp hfloor
  · intro s hs
    rcases List.mem_append.mp hs with hs | hcity
    · rcases List.mem_append.mp hs with hs | hexc
      · rcases List.mem_append.mp hs with htot | hreg
        · simp only [detect_surges, Option.mem_toList, Option.mem_def] at htot
          obtain ⟨h1, h2, _⟩ := check_surge_spec _ _ _ _ _ _ _ _ _ htot
          exact ⟨h1, h2⟩
        · simp only [detect_surges, List.mem_filterMap] at hreg
          obtain ⟨rc, _, hsome⟩ := hreg
          split at hsome
          · exact absurd hsome (by simp)
          · obtain ⟨h1, h2, _⟩ := check_surge_spec _ _ _ _ _ _ _ _ _ hsome
            exact ⟨h1, h2⟩
      · simp only [detect_surges, List.mem_filterMap] at hexc
        obtain ⟨ec, _, hsome⟩ := hexc
        split at hsome
        · exact absurd hsome (by simp)
        · obtain ⟨h1, h2, _⟩ := check_surge_spec _ _ _ _ _ _ _ _ _ hsome
          exact ⟨h1, h2⟩
    · simp only [detect_surges, List.mem_filterMap] at hcity
      obtain ⟨cc, _, hsome⟩ := hcity
      split at hsome
      · exact absurd hsome (by simp)
      · obtain ⟨h1, h2, _⟩ := check_surge_spec _ _ _ _ _ _ _ _ _ hsome
        exact ⟨h1, h2⟩

/-- Concrete surge input for the C8 witness: one region at count 20 against
a last-week count of 10 and an MTD average of 10. -/
def surgeTargetEx : SurgeLevelData ℕ :=
  { total := 20, regions := [("R", 20)], exchanges := [], cities := [] }

/-- Last-week counts for the C8 witness. -/
def surgeLastWeekEx : SurgeLevelData ℕ :=
  { total := 10, regions := [("R", 10)], exchanges := [], cities := [] }

/-- MTD averages for the C8 witness. -/
def surgeMtdEx : SurgeLevelData ℚ :=
  { total := 10, regions := [("R", 10)], exchanges := [], cities := [] }

/-- Witness for C8: the emitted region surge of the concrete input satisfies
the floor. -/
theorem c8_surge_floors_witness :
    (∀ s ∈ (detect_surges surgeTargetEx surgeLastWeekEx surgeMtdEx 20 50).regions,
      15 ≤ s.current_count) ∧
    (detect_surges surgeTargetEx surgeLastWeekEx surgeMtdEx 20 50).regions ≠ [] :=
  ⟨(c8_surge_floors surgeTargetEx surgeLastWeekEx surgeMtdEx 20 50).1, by
    norm_num [detect_surges, check_surge, calculate_surge, pyRound1, pyInt,
      surgeTargetEx, surgeLastWeekEx, surgeMtdEx, round_eq]
    simp⟩

/-! ## Claim C9 -/

/-- C9: rows whose timestamp is still null after all format attempts never
reach the commit; if every row's timestamp fails to parse, the stage returns
an error whose diagnostics carry the first raw timestamp value and commits
nothing; and if at least one row parses, ingestion proceeds with status
success. -/
theorem c9_ingest_drop (fmts : List (String → Option ℤ)) (rows : List CsvRow) :
    (∀ r ∈ (ingestFinalize fmts rows).committed, r.sr_open_dttm.isSome = true) ∧
    (∀ r0 rest, rows = r0 :: rest →
      (∀ r ∈ rows, coalesceParse fmts r.sr_open_dttm = none) →
      (ingestFinalize fmts rows).status = StageStatus.error ∧
      (ingestFinalize fmts rows).raw_sample = some r0.sr_open_dttm ∧
      (ingestFinalize fmts rows).committed = []) ∧
    ((∃ r ∈ rows, (coalesceParse fmts r.sr_open_dttm).isSome = true) →
      (ingestFinalize fmts rows).status = StageStatus.success) := by
  refine ⟨?_, ?_, ?_⟩
  · intro r hr
    simp only [ingestFinalize] at hr
    split at hr
    · simp at hr
    · exact (List.mem_filter.mp (List.mem_filter.mp hr).1).2
  · intro r0 rest hrows hall
    subst hrows
    have hkept : List.filter (fun r => r.sr_open_dttm.isSome)
        (List.map (parseRow fmts) (r0 :: rest)) = [] := by
      refine List.filter_eq_nil_iff.mpr ?_
      intro x hx
      obtain ⟨y, hy, rfl⟩ := List.mem_map.mp hx
      simp [parseRow, hall y hy]
    simp only [ingestFinalize]
    rw [if_pos hkept]
    exact ⟨rfl, by simp [parseRow], rfl⟩
  · intro ⟨r, hr, hsome⟩
    have hmem : parseRow fmts r ∈
        List.filter (fun x => x.sr_open_dttm.isSome)
          (List.map (parseRow fmts) rows) := by
      refine List.mem_filter.mpr ⟨List.mem_map_of_mem _ hr, ?_⟩
      simpa [parseRow] using hsome
    have hne := List.ne_nil_of_mem hmem
    simp only [ingestFinalize]
    rw [if_neg hne]

/-- Witness for C9: a one-row file whose only timestamp fails every format:
the stage errors with the raw value `bad` as diagnostic and commits
nothing. -/
theorem c9_ingest_drop_witness :
    (ingestFinalize [] [{ sr_open_dttm := "bad", sr_number := some "A" }]).status =
      StageStatus.error ∧
    (ingestFinalize [] [{ sr_open_dttm := "bad", sr_number := some "A" }]).raw_sample =
      some "bad" ∧
    (ingestFinalize [] [{ sr_open_dttm := "bad", sr_number := some "A" }]).committed =
      [] :=
  (c9_ingest_drop [] [{ sr_open_dttm := "bad", sr_number := some "A" }]).2.1
    { sr_open_dttm := "bad", sr_number := some "A" } [] rfl
    (by intro r hr; simp at hr; subst hr; rfl)

/-! ## Claim C10 -/

/-- Membership is preserved by the z-score insertion step. -/
theorem mem_insertByZDesc (x a : Anomaly) (l : List Anomaly) :
    a ∈ insertByZDesc x l ↔ a = x ∨ a ∈ l := by
  induction l with
  | nil => simp [insertByZDesc]
  | cons y ys ih =>
    simp only [insertByZDesc]
    split
    · simp [List.mem_cons]
    · simp only [List.mem_cons, ih]
      tauto

/-- Membership is preserved by the narrator's ordering. -/
theorem mem_sortByZDesc (a : Anomaly) (l : List Anomaly) :
    a ∈ sortByZDesc l ↔ a ∈ l := by
  induction l with
  | nil => simp [sortByZDesc]
  | cons y ys ih =>
    simp only [sortByZDesc, List.foldr_cons, mem_insertByZDesc]
    simp only [sortByZDesc] at ih
    simp [ih]

/-- The z-score insertion step adds exactly one element. -/
theorem length_insertByZDesc (x : Anomaly) (l : List Anomaly) :
    (insertByZDesc x l).length = l.length + 1 := by
  induction l with
  | nil => simp [insertByZDesc]
  | cons y ys ih =>
    simp only [insertByZDesc]
    split
    · simp
    · simp [ih]

/-- The narrator's ordering preserves length. -/
theorem length_sortByZDesc (l : List Anomaly) :
    (sortByZDesc l).length = l.length := by
  induction l with
  | nil => rfl
  | cons y ys ih =>
    simp only [sortByZDesc, List.foldr_cons, length_insertByZDesc]
    simp only [sortByZDesc] at ih
    simp [ih]

/-- When no anomaly is INFO, the narrator's filter drops nothing. -/
theorem narratorInsights_length (d : ℤ) (l : List Anomaly)
    (h : ∀ a ∈ l, a.severity ≠ Severity.INFO) :
    (l.filterMap (fun a =>
      if a.severity = Severity.INFO then none
      else some (mkInsight d a))).length = l.length := by
  induction l with
  | nil => simp
  | cons y ys ih =>
    rw [List.filterMap_cons]
    rw [if_neg (h y (by simp))]
    simp only [List.length_cons]
    rw [ih (fun a ha => h a (by simp [ha]))]

/-- C10: the detector only ever assigns WARNING or CRITICAL, the severity
stage preserves that, and a narrator run over anomalies none of which is
INFO appends exactly one insight per anomaly. -/
theorem c10_no_info (dimName col : String) (file : List AnomalyFileRow)
    (rowsD : List RawRow) (tw tc : ℚ) (prev : List (String × String))
    (anoms : List Anomaly) (d : ℤ) (table : List ExecInsight) :
    (∀ a ∈ anomalyDetectDim dimName col file rowsD tw tc,
      a.severity = Severity.WARNING ∨ a.severity = Severity.CRITICAL) ∧
    ((∀ a ∈ anoms,
        a.severity = Severity.WARNING ∨ a.severity = Severity.CRITICAL) →
      ∀ a ∈ severityRun prev anoms,
        a.severity = Severity.WARNING ∨ a.severity = Severity.CRITICAL) ∧
    ((∀ a ∈ anoms, a.severity ≠ Severity.INFO) →
      (narratorRun d table anoms).length = table.length + anoms.length) := by
  refine ⟨?_, ?_, ?_⟩
  · intro a ha
    simp only [anomalyDetectDim, List.mem_filterMap] at ha
    obtain ⟨kc, _, hsome⟩ := ha
    split at hsome
    · injection hsome with h
      subst h
      dsimp only
      split
      · right
        rfl
      · left
        rfl
    · exact absurd hsome (by simp)
  · intro h a ha
    obtain ⟨b, hb, rfl⟩ := List.mem_map.mp ha
    by_cases hcond : b.severity = Severity.WARNING ∧
        ((b.dimension, b.dimension_key) ∈ prev ∨
          (3 < regionAnomalyCount anoms ∧ b.dimension = "Type"))
    · simp [severityUpgradeOne, hcond]
    · simp only [severityUpgradeOne, if_neg hcond]
      exact h b hb
  · intro h
    unfold narratorRun
    rw [List.length_append]
    rw [narratorInsights_length d _
      (fun a ha => h a ((mem_sortByZDesc a anoms).mp ha))]
    rw [length_sortByZDesc]

/-- Witness for C10: one WARNING anomaly yields exactly one insight. -/
theorem c10_no_info_witness :
    (narratorRun 0 [] [warnEx]).length =
      ([] : List ExecInsight).length + [warnEx].length :=
  (c10_no_info "Region" "region" [] [] 2 3 [] [warnEx] 0 []).2.2
    (by intro a ha; simp only [List.mem_singleton] at ha; subst ha; decide)

/-! ## Claim C2 -/

/-- C2: re-running the Narrator for the same date duplicates insights — the
second run appends a second copy of the same insight instead of leaving the
table for D unchanged — and the Anomaly stage's date-scoped delete is
skipped when the freshly detected set is empty, leaving pre-existing rows
for D in place.  This exhibits the idempotency violation at a concrete
input. -/
theorem c2_rerun_not_idempotent :
    (narratorRun 0 [] [warnEx]).length = 1 ∧
    (narratorRun 0 (narratorRun 0 [] [warnEx]) [warnEx]).length = 2 ∧
    narratorRun 0 (narratorRun 0 [] [warnEx]) [warnEx] ≠
      narratorRun 0 [] [warnEx] ∧
    anomalyStore [(0, warnEx)] 0 [] = [(0, warnEx)] := by
  refine ⟨?_, ?_, ?_, ?_⟩
  · simp [narratorRun, sortByZDesc, insertByZDesc, warnEx]
  · simp [narratorRun, sortByZDesc, insertByZDesc, warnEx]
  · intro h
    have := congrArg List.length h
    simp [narratorRun, sortByZDesc, insertByZDesc, warnEx] at this
  · simp [anomalyStore]

/-! ## Claim C3 -/

/-- A concrete raw complaint row. -/
def rowEx : RawRow :=
  { sr_open_dt := 0, sr_type := "T", region := "K", exc_id := "E"
  , city := "C", olt_id := "O", rca := "X" }

/-- C3: whenever at least one raw row exists in the 35-day lookback, the
Baseline stage errors out instead of succeeding: its query selects `olt_id`
but not `city`, so grouping the `City` dimension by the `city` column raises
`ColumnNotFoundError`, the run returns status error, and only the Type,
Region and Exchange baselines were persisted. -/
theorem c3_baseline_city_error (rows : List RawRow) (D : ℤ)
    (h : ∃ r ∈ rows, D - 35 ≤ r.sr_open_dt ∧ r.sr_open_dt ≤ D) :
    (baselineRun rows D).status = StageStatus.error ∧
    (baselineRun rows D).persisted.map Prod.fst =
      ["Type", "Region", "Exchange"] := by
  obtain ⟨r, hr, hcond⟩ := h
  have hmem : r ∈ rows.filter
      (fun r => D - 35 ≤ r.sr_open_dt ∧ r.sr_open_dt ≤ D) :=
    List.mem_filter.mpr ⟨hr, by simpa using hcond⟩
  have hne := List.ne_nil_of_mem hmem
  constructor <;>
    (simp only [baselineRun]
     rw [if_neg hne]
     simp [baselineRunGo, baselineDimensions, baselineQueryCols])

/-- Witness for C3 at a one-row table and target day 0. -/
theorem c3_baseline_city_error_witness :
    (baselineRun [rowEx] 0).status = StageStatus.error ∧
    (baselineRun [rowEx] 0).persisted.map Prod.fst =
      ["Type", "Region", "Exchange"] :=
  c3_baseline_city_error [rowEx] 0 ⟨rowEx, by simp, by decide⟩

/-! ## Claim C1 -/

/-- With a missing baseline entry the fill turns the z-score into
`current / 0.001 = 1000 · current`. -/
theorem anomalyZ_no_baseline (x : ℚ) : anomalyZ 0 0 x = 1000 * x := by
  unfold anomalyZ
  rw [sub_zero, zero_add, div_eq_mul_inv]
  norm_num
  ring

/-- In a list whose keys are pairwise distinct, a key determines its
value. -/
theorem snd_eq_of_nodup_keys {α β : Type _} (l : List (α × β))
    (hnd : (l.map Prod.fst).Nodup) (k : α) (b c : β)
    (hb : (k, b) ∈ l) (hc : (k, c) ∈ l) : b = c := by
  induction l with
  | nil => simp at hb
  | cons x xs ih =>
    rw [List.map_cons, List.nodup_cons] at hnd
    rcases List.mem_cons.mp hb with hb1 | hb1 <;>
      rcases List.mem_cons.mp hc with hc1 | hc1
    · have := hb1.trans hc1.symm
      exact (Prod.mk.injEq _ _ _ _ ▸ this).2
    · rw [← hb1] at hnd
      exact absurd (List.mem_map_of_mem Prod.fst hc1) hnd.1
    · rw [← hc1] at hnd
      exact absurd (List.mem_map_of_mem Prod.fst hb1) hnd.1
    · exact ih hnd.2 hb1 hc1

/-- C1 counterexample: a brand-new key (`K`, observed once on D, absent from
the baseline file) IS emitted as an anomaly — with zero-filled baseline
fields and z-score 1000 it comes out CRITICAL. -/
theorem c1_counterexample :
    baselineLookup [] "K" = none ∧
    ("K", 1) ∈ currentCounts [rowEx] "region" ∧
    ∃ a ∈ anomalyDetectDim "Region" "region" [] [rowEx] 2 3,
      a.dimension_key = "K" ∧ a.severity = Severity.CRITICAL := by
  refine ⟨rfl, by decide, ?_⟩
  refine ⟨{ dimension := "Region", dimension_key := "K", metric_value := 1
          , baseline_avg := 0, baseline_std := 0, z_score := 1000
          , severity := Severity.CRITICAL, rca_context := [] }, ?_, rfl, rfl⟩
  simp only [anomalyDetectDim]
  refine List.mem_filterMap.mpr ⟨("K", 1), by decide, ?_⟩
  norm_num [baselineLookup, anomalyZ]

/-- C1 (amended): a key observed on D with count `c` and no entry in the
baseline file gets its missing `avg_30d`/`std_30d` filled with 0, hence
z-score `c / 0.001 = 1000·c`, and it IS emitted as an anomaly exactly when
`1000·c` exceeds the warning threshold (so, with any count ≥ 1 and the
default thresholds, always), graded CRITICAL when `1000·c` exceeds the
critical threshold. -/
theorem c1_missing_baseline_emits (dimName col : String)
    (file : List AnomalyFileRow) (rowsD : List RawRow) (tw tc : ℚ)
    (k : String) (c : ℕ) (hmem : (k, c) ∈ currentCounts rowsD col)
    (hnodup : ((currentCounts rowsD col).map Prod.fst).Nodup)
    (hmiss : baselineLookup file k = none) :
    ((∃ a ∈ anomalyDetectDim dimName col file rowsD tw tc,
        a.dimension_key = k) ↔ tw < 1000 * (c : ℚ)) ∧
    (tw < 1000 * (c : ℚ) →
      ∃ a ∈ anomalyDetectDim dimName col file rowsD tw tc,
        a.dimension_key = k ∧ a.baseline_avg = 0 ∧ a.baseline_std = 0 ∧
        a.z_score = 1000 * (c : ℚ) ∧
        (a.severity = Severity.CRITICAL ↔ tc < 1000 * (c : ℚ))) := by
  have hemit : tw < 1000 * (c : ℚ) →
      ∃ a ∈ anomalyDetectDim dimName col file rowsD tw tc,
        a.dimension_key = k ∧ a.baseline_avg = 0 ∧ a.baseline_std = 0 ∧
        a.z_score = 1000 * (c : ℚ) ∧
        (a.severity = Severity.CRITICAL ↔ tc < 1000 * (c : ℚ)) := by
    intro hlt
    refine ⟨{ dimension := dimName, dimension_key := k
            , metric_value := (c : ℚ), baseline_avg := 0, baseline_std := 0
            , z_score := 1000 * (c : ℚ)
            , severity := if tc < 1000 * (c : ℚ) then Severity.CRITICAL
                          else Severity.WARNING
            , rca_context := [] }, ?_, rfl, rfl, rfl, rfl, ?_⟩
    · simp only [anomalyDetectDim]
      refine List.mem_filterMap.mpr ⟨(k, c), hmem, ?_⟩
      simp only [hmiss]
      simp [anomalyZ_no_baseline]
      exact hlt
    · by_cases hc : tc < 1000 * (c : ℚ)
      · simp [hc]
      · simp [hc]
  refine ⟨⟨?_, fun hlt => ((hemit hlt).imp fun a ⟨ha, hk, _⟩ => ⟨ha, hk⟩)⟩, hemit⟩
  intro ⟨a, ha, hak⟩
  simp only [anomalyDetectDim, List.mem_filterMap] at ha
  obtain ⟨⟨k1, c1⟩, hkc, hsome⟩ := ha
  split at hsome
  · next hcond =>
    injection hsome with hrec
    subst hrec
    simp only at hak hcond
    subst hak
    have hc1 : c1 = c := snd_eq_of_nodup_keys _ hnodup k1 c1 c hkc hmem
    subst hc1
    rw [hmiss] at hcond
    simpa [anomalyZ_no_baseline] using hcond
  · exact absurd hsome (by simp)

/-- Witness for C1 at the concrete brand-new key `K` with count 1 and the
default thresholds. -/
theorem c1_missing_baseline_emits_witness :
    ∃ a ∈ anomalyDetectDim "Region" "region" [] [rowEx] 2 3,
      a.dimension_key = "K" ∧ a.baseline_avg = 0 ∧ a.baseline_std = 0 ∧
      a.z_score = 1000 * ((1 : ℕ) : ℚ) ∧
      (a.severity = Severity.CRITICAL ↔ (3 : ℚ) < 1000 * ((1 : ℕ) : ℚ)) :=
  (c1_missing_baseline_emits "Region" "region" [] [rowEx] 2 3 "K" 1
    (by decide) (by decide) rfl).2 (by norm_num)

/-! ## Claim C4 -/

/-- Membership is preserved by the count-descending insertion step. -/
theorem mem_insertByCountDesc (x a : String × ℕ) (l : List (String × ℕ)) :
    a ∈ insertByCountDesc x l ↔ a = x ∨ a ∈ l := by
  induction l with
  | nil => simp [insertByCountDesc]
  | cons y ys ih =>
    simp only [insertByCountDesc]
    split
    · simp [List.mem_cons]
    · simp only [List.mem_cons, ih]
      tauto

/-- The count-descending insertion step yields a permutation of the cons. -/
theorem perm_insertByCountDesc (x : String × ℕ) (l : List (String × ℕ)) :
    List.Perm (insertByCountDesc x l) (x :: l) := by
  induction l with
  | nil => rfl
  | cons y ys ih =>
    simp only [insertByCountDesc]
    split
    · rfl
    · exact (List.Perm.cons y ih).trans (List.Perm.swap x y ys)

/-- The count-descending sort is a permutation of its input. -/
theorem perm_sortByCountDesc (l : List (String × ℕ)) :
    List.Perm (sortByCountDesc l) l := by
  induction l with
  | nil => rfl
  | cons y ys ih =>
    simp only [sortByCountDesc, List.foldr_cons]
    exact (perm_insertByCountDesc y _).trans
      (List.Perm.cons y (by simpa [sortByCountDesc] using ih))

/-- Inserting into a count-descending list keeps it count-descending. -/
theorem pairwise_insertByCountDesc (x : String × ℕ) (l : List (String × ℕ))
    (h : l.Pairwise (fun p q => q.2 ≤ p.2)) :
    (insertByCountDesc x l).Pairwise (fun p q => q.2 ≤ p.2) := by
  induction l with
  | nil => simp [insertByCountDesc]
  | cons y ys ih =>
    simp only [insertByCountDesc]
    split
    · next hlt =>
      refine List.Pairwise.cons ?_ h
      intro z hz
      rcases List.mem_cons.mp hz with rfl | hz
      · exact le_of_lt hlt
      · exact le_trans ((List.pairwise_cons.mp h).1 z hz) (le_of_lt hlt)
    · next hge =>
      rw [List.pairwise_cons] at h
      refine List.Pairwise.cons ?_ (ih h.2)
      intro z hz
      rcases (mem_insertByCountDesc x z ys).mp hz with rfl | hz
      · exact not_lt.mp hge
      · exact h.1 z hz

/-- The count-descending sort is sorted: counts never increase along it. -/
theorem pairwise_sortByCountDesc (l : List (String × ℕ)) :
    (sortByCountDesc l).Pairwise (fun p q => q.2 ≤ p.2) := by
  induction l with
  | nil => simp [sortByCountDesc]
  | cons y ys ih =>
    simp only [sortByCountDesc, List.foldr_cons]
    exact pairwise_insertByCountDesc y _ (by simpa [sortByCountDesc] using ih)

/-- A pair in the grouped counts is a distinct value with its exact
frequency. -/
theorem mem_rcaGroupCounts (rcas : List String) (vc : String × ℕ)
    (h : vc ∈ rcaGroupCounts rcas) :
    vc.1 ∈ rcas ∧ vc.2 = rcas.count vc.1 := by
  obtain ⟨v, hv, rfl⟩ := List.mem_map.mp h
  exact ⟨List.mem_dedup.mp hv, rfl⟩

/-- Specification of `rcaTop3`: it lists `min 3 (#distinct values)` pairs;
each pair is an occurring value with `count/total·100` as its percentage;
and every value left unlisted occurs at most as often as any listed one
(the listed values are top-3 by frequency). -/
theorem rcaTop3_spec (rcas : List String) :
    (rcaTop3 rcas).length = min 3 rcas.dedup.length ∧
    (∀ vp ∈ rcaTop3 rcas, vp.1 ∈ rcas ∧
      vp.2 = ((rcas.count vp.1 : ℕ) : ℚ) / ((rcas.length : ℕ) : ℚ) * 100) ∧
    (∀ vp ∈ rcaTop3 rcas, ∀ w ∈ rcas, w ∉ (rcaTop3 rcas).map Prod.fst →
      rcas.count w ≤ rcas.count vp.1) := by
  have hperm := perm_sortByCountDesc (rcaGroupCounts rcas)
  refine ⟨?_, ?_, ?_⟩
  · rw [rcaTop3, List.length_map, List.length_take, hperm.length_eq,
      rcaGroupCounts, List.length_map]
  · intro vp hvp
    obtain ⟨⟨v, n⟩, hvn, rfl⟩ := List.mem_map.mp hvp
    have hmem : (v, n) ∈ rcaGroupCounts rcas :=
      hperm.mem_iff.mp (List.mem_of_mem_take hvn)
    obtain ⟨hv, hn⟩ := mem_rcaGroupCounts rcas (v, n) hmem
    exact ⟨hv, by simp only at hn ⊢; rw [hn]⟩
  · intro vp hvp w hw hwout
    obtain ⟨⟨v, n⟩, hvn, rfl⟩ := List.mem_map.mp hvp
    have hnv : n = rcas.count v :=
      (mem_rcaGroupCounts rcas (v, n)
        (hperm.mem_iff.mp (List.mem_of_mem_take hvn))).2
    have hwmem : (w, rcas.count w) ∈ sortByCountDesc (rcaGroupCounts rcas) := by
      refine hperm.mem_iff.mpr ?_
      exact List.mem_map.mpr ⟨w, List.mem_dedup.mpr hw, rfl⟩
    have hwdrop : (w, rcas.count w) ∈
        (sortByCountDesc (rcaGroupCounts rcas)).drop 3 := by
      rcases (List.mem_append.mp
        (by rw [List.take_append_drop]; exact hwmem :
          (w, rcas.count w) ∈ (sortByCountDesc (rcaGroupCounts rcas)).take 3 ++
            (sortByCountDesc (rcaGroupCounts rcas)).drop 3)) with hin | hout
      · exact absurd (List.mem_map.mpr ⟨(w, rcas.count w), hin, rfl⟩)
          (by simpa [rcaTop3, List.map_map, Function.comp] using hwout)
      · exact hout
    have hpw := pairwise_sortByCountDesc (rcaGroupCounts rcas)
    rw [← List.take_append_drop 3 (sortByCountDesc (rcaGroupCounts rcas))] at hpw
    have := (List.pairwise_append.mp hpw).2.2 (v, n) hvn (w, rcas.count w) hwdrop
    simpa [hnv] using this

/-- A City-dimension anomaly used in the C4 counterexample. -/
def cityAnomEx : Anomaly :=
  { dimension := "City", dimension_key := "C", metric_value := 5
  , baseline_avg := 1, baseline_std := 1, z_score := 4
  , severity := Severity.WARNING, rca_context := [] }

/-- C4 counterexample: a City anomaly whose scope has a raw row on D gets NO
`Probable RCA` entry — the RCA agent's `dim_map` has no `City` entry (it maps
`OLT`, a dimension that never occurs, instead), so the anomaly passes through
unchanged. -/
theorem c4_counterexample :
    rcaDimMap.lookup "City" = none ∧
    (∃ r ∈ [rowEx], r.city = "C" ∧ r.rca = "X") ∧
    rcaProcessAnomaly [rowEx] cityAnomEx = cityAnomEx := by
  refine ⟨rfl, ⟨rowEx, by simp, rfl, rfl⟩, ?_⟩
  decide

/-- C4 (amended): for an anomaly with dimension in {Type, Region, Exchange}
(City anomalies are silently skipped because `dim_map` has no City entry)
whose scope has at least one raw row on D, the RCA stage appends exactly one
`Probable RCA` entry holding the top-3 rca values of the scope by frequency,
each with its percentage of the scope total. -/
theorem c4_rca_appends (rowsD : List RawRow) (a : Anomaly) (col : String)
    (hdim : (a.dimension, col) ∈
      [("Type", "sr_type"), ("Region", "region"), ("Exchange", "exc_id")])
    (hscope : rowsD.filter (fun r => colOf r col = some a.dimension_key) ≠ []) :
    rcaProcessAnomaly rowsD a = { a with rca_context := a.rca_context ++
      [ContextEntry.probableRCA (rcaTop3
        ((rowsD.filter (fun r => colOf r col = some a.dimension_key)).map
          (fun r => r.rca)))] } ∧
    (rcaTop3 ((rowsD.filter (fun r => colOf r col = some a.dimension_key)).map
        (fun r => r.rca))).length =
      min 3 ((rowsD.filter (fun r => colOf r col = some a.dimension_key)).map
        (fun r => r.rca)).dedup.length ∧
    (∀ vp ∈ rcaTop3 ((rowsD.filter
        (fun r => colOf r col = some a.dimension_key)).map (fun r => r.rca)),
      vp.1 ∈ (rowsD.filter (fun r => colOf r col = some a.dimension_key)).map
        (fun r => r.rca) ∧
      vp.2 = ((((rowsD.filter (fun r => colOf r col = some a.dimension_key)).map
          (fun r => r.rca)).count vp.1 : ℕ) : ℚ) /
        ((((rowsD.filter (fun r => colOf r col = some a.dimension_key)).map
          (fun r => r.rca)).length : ℕ) : ℚ) * 100 ∧
      ∀ w ∈ (rowsD.filter (fun r => colOf r col = some a.dimension_key)).map
          (fun r => r.rca),
        w ∉ (rcaTop3 ((rowsD.filter
          (fun r => colOf r col = some a.dimension_key)).map
            (fun r => r.rca))).map Prod.fst →
        ((rowsD.filter (fun r => colOf r col = some a.dimension_key)).map
          (fun r => r.rca)).count w ≤
        ((rowsD.filter (fun r => colOf r col = some a.dimension_key)).map
          (fun r => r.rca)).count vp.1) := by
  have hdim2 : a.dimension = "Type" ∧ col = "sr_type" ∨
      a.dimension = "Region" ∧ col = "region" ∨
      a.dimension = "Exchange" ∧ col = "exc_id" := by
    simpa [Prod.ext_iff] using hdim
  have hne : a.dimension ≠ "RCA" := by
    rcases hdim2 with ⟨h1, _⟩ | ⟨h1, _⟩ | ⟨h1, _⟩ <;> rw [h1] <;> decide
  have hlook : rcaDimMap.lookup a.dimension = some col := by
    rcases hdim2 with ⟨h1, h2⟩ | ⟨h1, h2⟩ | ⟨h1, h2⟩ <;> rw [h1, h2] <;> rfl
  have happ : rcaProcessAnomaly rowsD a =
      { a with rca_context := a.rca_context ++
        [ContextEntry.probableRCA (rcaTop3
          ((rowsD.filter (fun r => colOf r col = some a.dimension_key)).map
            (fun r => r.rca)))] } := by
    simp only [rcaProcessAnomaly, if_neg hne, hlook]
    rw [if_neg hscope]
  refine ⟨happ, (rcaTop3_spec _).1, ?_⟩
  intro vp hvp
  obtain ⟨_, hval, htop⟩ := rcaTop3_spec
    ((rowsD.filter (fun r => colOf r col = some a.dimension_key)).map
      (fun r => r.rca))
  exact ⟨(hval vp hvp).1, (hval vp hvp).2,
    fun w hw hwo => htop vp hvp w hw hwo⟩

/-- A Region anomaly used by the C4 witness. -/
def regionAnomEx : Anomaly :=
  { dimension := "Region", dimension_key := "K", metric_value := 5
  , baseline_avg := 1, baseline_std := 1, z_score := 4
  , severity := Severity.WARNING, rca_context := [] }

/-- Witness for C4: a Region anomaly over a one-row scope receives exactly
its `Probable RCA` entry. -/
theorem c4_rca_appends_witness :
    rcaProcessAnomaly [rowEx] regionAnomEx =
      { regionAnomEx with rca_context := regionAnomEx.rca_context ++
        [ContextEntry.probableRCA (rcaTop3
          (([rowEx].filter
            (fun r => colOf r "region" = some regionAnomEx.dimension_key)).map
              (fun r => r.rca)))] } :=
  (c4_rca_appends [rowEx] regionAnomEx "region" (by decide) (by decide)).1

/-! ## Claim C5 -/

/-- Characterization of the candidates the correlation loop lists: exactly
the targets whose own series has ≥ 3 points, whose inner join with the
anomaly's series has ≥ 3 points, and whose coefficient test passes. -/
theorem corrListedFor_mem (rows30 : List RawRow) (s1 : List (ℤ × ℕ))
    (targets : List (String × String)) (v : String) :
    v ∈ corrListedFor rows30 s1 targets ↔
      ∃ t ∈ targets, v = t.2 ∧
        ¬ (seriesFor rows30 t.1 t.2).length < 3 ∧
        ¬ (innerJoinCounts s1 (seriesFor rows30 t.1 t.2)).length < 3 ∧
        corrExceeds (innerJoinCounts s1 (seriesFor rows30 t.1 t.2))
          (7 / 10) = true := by
  simp only [corrListedFor, List.mem_filterMap]
  constructor
  · rintro ⟨t, ht, hsome⟩
    refine ⟨t, ht, ?_⟩
    split at hsome
    · exact absurd hsome (by simp)
    · next h1 =>
      split at hsome
      · exact absurd hsome (by simp)
      · next h2 =>
        split at hsome
        · next h3 =>
          injection hsome with hv
          exact ⟨hv.symm, h1, h2, h3⟩
        · exact absurd hsome (by simp)
  · rintro ⟨t, ht, rfl, h1, h2, h3⟩
    refine ⟨t, ht, ?_⟩
    dsimp only
    rw [if_neg h1, if_neg h2, if_pos h3]

/-- The candidate targets are exactly the top types (when the anomaly is not
a Type anomaly) and the top regions (when it is not a Region anomaly); no
Exchange, City or RCA key is ever a candidate. -/
theorem corrTargets_mem (dim : String) (topT topR : List String)
    (tcol tval : String) :
    ((tcol, tval) ∈ corrTargets dim topT topR) ↔
      ((tcol = "sr_type" ∧ tval ∈ topT ∧ dim ≠ "Type") ∨
       (tcol = "region" ∧ tval ∈ topR ∧ dim ≠ "Region")) := by
  unfold corrTargets
  by_cases h1 : dim = "Type"
  · subst h1
    simp [Prod.ext_iff, eq_comm]
    try tauto
  · by_cases h2 : dim = "Region"
    · subst h2
      simp [h1, Prod.ext_iff, eq_comm]
      try tauto
    · simp [h1, h2, Prod.ext_iff, eq_comm]
      try tauto

/-- C5 (amended): the candidate set consists only of the top-5 `sr_type`
keys and the top-5 `region` keys of the 30-day frame (each excluded when it
is the anomaly's own dimension) — Exchange, City and RCA keys are never
candidates; RCA-dimension anomalies are processed as well
(`dim_map` maps RCA); an anomaly is only compared when its own series has
≥ 3 points, and the `Correlated with` entry lists exactly the candidates
whose series has ≥ 3 points, ≥ 3 inner-joined points, and Pearson
correlation above 0.7. -/
theorem c5_correlation (rows30 : List RawRow) (a : Anomaly) (col : String)
    (hcol : corrDimMap.lookup a.dimension = some col)
    (hs1 : ¬ (seriesFor rows30 col a.dimension_key).length < 3) :
    (∀ v, v ∈ corrListedFor rows30 (seriesFor rows30 col a.dimension_key)
        (corrTargets a.dimension (top5Keys rows30 "sr_type")
          (top5Keys rows30 "region")) ↔
      ∃ t ∈ corrTargets a.dimension (top5Keys rows30 "sr_type")
          (top5Keys rows30 "region"), v = t.2 ∧
        ¬ (seriesFor rows30 t.1 t.2).length < 3 ∧
        ¬ (innerJoinCounts (seriesFor rows30 col a.dimension_key)
          (seriesFor rows30 t.1 t.2)).length < 3 ∧
        corrExceeds (innerJoinCounts (seriesFor rows30 col a.dimension_key)
          (seriesFor rows30 t.1 t.2)) (7 / 10) = true) ∧
    (∀ tcol tval, ((tcol, tval) ∈ corrTargets a.dimension
        (top5Keys rows30 "sr_type") (top5Keys rows30 "region")) ↔
      ((tcol = "sr_type" ∧ tval ∈ top5Keys rows30 "sr_type" ∧
          a.dimension ≠ "Type") ∨
       (tcol = "region" ∧ tval ∈ top5Keys rows30 "region" ∧
          a.dimension ≠ "Region"))) ∧
    corrDimMap.lookup "RCA" = some "rca" ∧
    (corrListedFor rows30 (seriesFor rows30 col a.dimension_key)
        (corrTargets a.dimension (top5Keys rows30 "sr_type")
          (top5Keys rows30 "region")) = [] →
      corrProcessAnomaly rows30 (top5Keys rows30 "sr_type")
        (top5Keys rows30 "region") a = a) ∧
    (corrListedFor rows30 (seriesFor rows30 col a.dimension_key)
        (corrTargets a.dimension (top5Keys rows30 "sr_type")
          (top5Keys rows30 "region")) ≠ [] →
      corrProcessAnomaly rows30 (top5Keys rows30 "sr_type")
        (top5Keys rows30 "region") a =
      { a with rca_context := a.rca_context ++
        [ContextEntry.correlatedWith (corrListedFor rows30
          (seriesFor rows30 col a.dimension_key)
          (corrTargets a.dimension (top5Keys rows30 "sr_type")
            (top5Keys rows30 "region")))] }) := by
  refine ⟨fun v => corrListedFor_mem rows30 _ _ v,
    fun tcol tval => corrTargets_mem a.dimension _ _ tcol tval, rfl, ?_, ?_⟩
  · intro hnil
    simp only [corrProcessAnomaly, hcol]
    rw [if_neg hs1, if_pos hnil]
  · intro hnil
    simp only [corrProcessAnomaly, hcol]
    rw [if_neg hs1, if_neg hnil]

/-- Membership in the spec-side candidate listing (claim C5's words): a key
is listed when it is a top-5 key of some *other* dimension and its series
passes the ≥ 3 overlap and ρ > 0.7 tests against the anomaly's series. -/
theorem specCorrListed_mem (rows30 : List RawRow) (a : Anomaly)
    (col v : String) (hcol : corrDimMap.lookup a.dimension = some col) :
    v ∈ specCorrListed rows30 a ↔
      ∃ dc ∈ corrDimMap.filter (fun dc => dc.1 ≠ a.dimension),
        v ∈ top5Keys rows30 dc.2 ∧
        ¬ (innerJoinCounts (seriesFor rows30 col a.dimension_key)
          (seriesFor rows30 dc.2 v)).length < 3 ∧
        corrExceeds (innerJoinCounts (seriesFor rows30 col a.dimension_key)
          (seriesFor rows30 dc.2 v)) (7 / 10) = true := by
  simp only [specCorrListed, hcol, List.mem_flatMap]
  constructor
  · rintro ⟨dc, hdc, hvf⟩
    obtain ⟨w, hw, hsome⟩ := List.mem_filterMap.mp hvf
    refine ⟨dc, hdc, ?_⟩
    split at hsome
    · exact absurd hsome (by simp)
    · next h2 =>
      split at hsome
      · next h3 =>
        injection hsome with hv
        subst hv
        exact ⟨hw, h2, h3⟩
      · exact absurd hsome (by simp)
  · rintro ⟨dc, hdc, hv, h2, h3⟩
    refine ⟨dc, hdc, List.mem_filterMap.mpr ⟨v, hv, ?_⟩⟩
    dsimp only
    rw [if_neg h2, if_pos h3]

/-- One raw row of the C5 concrete scenario. -/
def mkRow5 (d : ℤ) : RawRow :=
  { sr_open_dt := d, sr_type := "T1", region := "R1", exc_id := "E1"
  , city := "C1", olt_id := "O1", rca := "X1" }

/-- The 30-day frame of the C5 scenario: counts 1, 2, 3 on three
consecutive days, every row in region R1, exchange E1, city C1, type T1,
rca X1 — so every dimension's series is identical and perfectly
correlated. -/
def rows30Ex : List RawRow :=
  [mkRow5 0, mkRow5 1, mkRow5 1, mkRow5 2, mkRow5 2, mkRow5 2]

/-- The common daily-count series of the C5 scenario. -/
def ser3 : List (ℤ × ℕ) := [(0, 1), (1, 2), (2, 3)]

/-- A Region anomaly of the C5 scenario. -/
def regionAnomC5 : Anomaly :=
  { dimension := "Region", dimension_key := "R1", metric_value := 3
  , baseline_avg := 1, baseline_std := 0, z_score := 4
  , severity := Severity.WARNING, rca_context := [] }

/-- An RCA-dimension anomaly of the C5 scenario. -/
def rcaAnomC5 : Anomaly :=
  { dimension := "RCA", dimension_key := "X1", metric_value := 3
  , baseline_avg := 1, baseline_std := 0, z_score := 4
  , severity := Severity.WARNING, rca_context := [] }

/-- C5 counterexample: in the concrete scenario the claim's candidate set
(top-5 of *each* other dimension) lists the exchange E1, whose series
correlates perfectly; the code's listing never contains E1 (its candidates
come only from sr_type and region); and an RCA-dimension anomaly — which
the claim says is not processed at all — does get a `Correlated with` entry
appended. -/
theorem c5_counterexample :
    "E1" ∈ specCorrListed rows30Ex regionAnomC5 ∧
    "E1" ∉ corrListedFor rows30Ex (seriesFor rows30Ex "region" "R1")
      (corrTargets "Region" (top5Keys rows30Ex "sr_type")
        (top5Keys rows30Ex "region")) ∧
    (∀ l, (corrProcessAnomaly rows30Ex (top5Keys rows30Ex "sr_type")
        (top5Keys rows30Ex "region") regionAnomC5).rca_context =
        [ContextEntry.correlatedWith l] → "E1" ∉ l) ∧
    (corrProcessAnomaly rows30Ex (top5Keys rows30Ex "sr_type")
      (top5Keys rows30Ex "region") rcaAnomC5).rca_context ≠ [] := by
  have hjoin : innerJoinCounts ser3 ser3 = [(1, 1), (2, 2), (3, 3)] := by
    decide
  have hjlen : ¬ (innerJoinCounts ser3 ser3).length < 3 := by decide
  have hcorr : corrExceeds (innerJoinCounts ser3 ser3) (7 / 10) = true := by
    rw [hjoin]
    unfold corrExceeds
    norm_num
  have hsR : seriesFor rows30Ex "region" regionAnomC5.dimension_key = ser3 := by
    decide
  have hsR' : seriesFor rows30Ex "region" "R1" = ser3 := by decide
  have hsE : seriesFor rows30Ex "exc_id" "E1" = ser3 := by decide
  have hsT : seriesFor rows30Ex "sr_type" "T1" = ser3 := by decide
  have hsX : seriesFor rows30Ex "rca" rcaAnomC5.dimension_key = ser3 := by
    decide
  have htargets : corrTargets "Region" (top5Keys rows30Ex "sr_type")
      (top5Keys rows30Ex "region") = [("sr_type", "T1")] := by decide
  have hnotinCode : "E1" ∉ corrListedFor rows30Ex
      (seriesFor rows30Ex "region" "R1")
      (corrTargets "Region" (top5Keys rows30Ex "sr_type")
        (top5Keys rows30Ex "region")) := by
    intro hmem
    obtain ⟨t, ht, heq, _⟩ := (corrListedFor_mem rows30Ex _ _ "E1").mp hmem
    rw [htargets] at ht
    rw [List.mem_singleton] at ht
    subst ht
    exact absurd heq (by decide)
  refine ⟨?_, hnotinCode, ?_, ?_⟩
  · refine (specCorrListed_mem rows30Ex regionAnomC5 "region" "E1" rfl).mpr
      ⟨("Exchange", "exc_id"), by decide, by decide, ?_, ?_⟩
    · rw [hsR, hsE]
      exact hjlen
    · rw [hsR, hsE]
      exact hcorr
  · intro l hl
    simp only [corrProcessAnomaly,
      show corrDimMap.lookup regionAnomC5.dimension = some "region" from rfl]
      at hl
    rw [if_neg (by rw [hsR]; decide :
      ¬ (seriesFor rows30Ex "region" regionAnomC5.dimension_key).length < 3)]
      at hl
    split at hl
    · exact absurd hl.symm (by simp [regionAnomC5])
    · simp only [regionAnomC5, List.nil_append] at hl
      injection hl with hl1 _
      injection hl1 with hl2
      subst hl2
      intro hE1
      exact hnotinCode (by
        simpa [regionAnomC5, hsR, hsR'] using hE1)
  · simp only [corrProcessAnomaly,
      show corrDimMap.lookup rcaAnomC5.dimension = some "rca" from rfl]
    rw [if_neg (by rw [hsX]; decide :
      ¬ (seriesFor rows30Ex "rca" rcaAnomC5.dimension_key).length < 3)]
    have hT1 : "T1" ∈ corrListedFor rows30Ex
        (seriesFor rows30Ex "rca" rcaAnomC5.dimension_key)
        (corrTargets rcaAnomC5.dimension (top5Keys rows30Ex "sr_type")
          (top5Keys rows30Ex "region")) := by
      refine (corrListedFor_mem rows30Ex _ _ "T1").mpr
        ⟨("sr_type", "T1"), by decide, rfl, ?_, ?_, ?_⟩
      · rw [show seriesFor rows30Ex ("sr_type", "T1").1 ("sr_type", "T1").2 =
          ser3 from hsT]
        decide
      · rw [hsX, show seriesFor rows30Ex ("sr_type", "T1").1
          ("sr_type", "T1").2 = ser3 from hsT]
        exact hjlen
      · rw [hsX, show seriesFor rows30Ex ("sr_type", "T1").1
          ("sr_type", "T1").2 = ser3 from hsT]
        exact hcorr
    rw [if_neg (List.ne_nil_of_mem hT1)]
    simp [rcaAnomC5]

/-- Witness for C5 at the concrete scenario's Region anomaly. -/
theorem c5_correlation_witness :
    corrDimMap.lookup "RCA" = some "rca" :=
  (c5_correlation rows30Ex regionAnomC5 "region" rfl (by decide)).2.2.1

end ComplaintsAI

